import Mathlib

/-!
Verification of the gateway-service request pipeline.

Shallow embedding, in Lean 4, of the parts of the gateway service that the
checked properties concern: the circuit breaker, the retry handler, the
router, the rate limiter, the load balancer, the refresh-token manager and
the request-body handling of the dispatch pipeline.  Each definition is a
direct translation of the corresponding Python function; comments name the
source file and the translation choices (e.g. machine floats for times and
delays are represented by rationals, `time.time()` readings become explicit
arguments).
-/

namespace GatewaySpec

/-! ## Circuit breaker — `app/core/circuit_breaker.py`

State machine per service.  `time.time()` readings are passed in as the
`now` argument (the two readings that a single `call` can perform — one in
`_should_attempt_reset`, one in `_on_failure` — are collapsed into the one
argument).  Configuration values are the fields resolved by `__init__`
(after the `x or settings.y` defaulting). -/

inductive CircuitState where
  | closed
  | opened
  | halfOpen
deriving DecidableEq, Repr

structure CBConfig where
  enabled : Bool
  failure_threshold : Nat
  timeout_seconds : ℚ
  half_open_max_calls : Nat
deriving DecidableEq, Repr

structure CBState where
  state : CircuitState
  failure_count : Nat
  success_count : Nat
  last_failure_time : Option ℚ
  half_open_calls : Nat
deriving DecidableEq, Repr

/-- Initial breaker state set up by `CircuitBreaker.__init__`. -/
def CBState.init : CBState :=
  { state := .closed, failure_count := 0, success_count := 0,
    last_failure_time := none, half_open_calls := 0 }

/-- Source: `CircuitBreaker._should_attempt_reset`. -/
def shouldAttemptReset (cfg : CBConfig) (cb : CBState) (now : ℚ) : Bool :=
  match cb.last_failure_time with
  | none => true
  | some t => decide (cfg.timeout_seconds ≤ now - t)

/-- Source: `CircuitBreaker._on_success`. -/
def onSuccess (cfg : CBConfig) (cb : CBState) : CBState :=
  if cb.state = .halfOpen then
    let cb' := { cb with success_count := cb.success_count + 1,
                         half_open_calls := cb.half_open_calls + 1 }
    if cfg.half_open_max_calls ≤ cb'.success_count then
      { cb' with state := .closed, failure_count := 0, success_count := 0,
                 half_open_calls := 0 }
    else cb'
  else
    { cb with failure_count := 0 }

/-- Source: `CircuitBreaker._on_failure`. -/
def onFailure (cfg : CBConfig) (cb : CBState) (now : ℚ) : CBState :=
  let cb' := { cb with failure_count := cb.failure_count + 1,
                       last_failure_time := some now }
  if cb'.state = .halfOpen then
    { cb' with state := .opened, half_open_calls := 0 }
  else if cfg.failure_threshold ≤ cb'.failure_count then
    { cb' with state := .opened }
  else cb'

/-- Outcome of the wrapped function, were it to be invoked. -/
inductive Outcome where
  | success
  | failure
deriving DecidableEq, Repr

/-- Result of one `CircuitBreaker.call`: `rejected` is the
`RuntimeError("Circuit breaker is OPEN")` raised without invoking the
wrapped function; `ok` and `errored` mean the function was invoked and
returned / raised. -/
inductive CallResult where
  | rejected
  | ok
  | errored
deriving DecidableEq, Repr

/-- How an executed call ends: the wrapped function returning maps to `ok`,
the wrapped function raising maps to `errored` (re-raised by the breaker). -/
def outcomeResult : Outcome → CallResult
  | .success => .ok
  | .failure => .errored

/-- The state bookkeeping after the wrapped function has been executed:
`_on_success` on success, `_on_failure` on failure. -/
def applyOutcome (cfg : CBConfig) (cb : CBState) (now : ℚ) : Outcome → CBState
  | .success => onSuccess cfg cb
  | .failure => onFailure cfg cb now

/-- Source: `CircuitBreaker.call` (the async variant `call_async` is line-for-line
identical).  The wrapped function's behaviour is the `outcome` argument; on
rejection it is not consulted. -/
def cbCall (cfg : CBConfig) (cb : CBState) (now : ℚ) (outcome : Outcome) :
    CallResult × CBState :=
  if cfg.enabled = false then
    (outcomeResult outcome, cb)
  else if cb.state = .opened ∧ shouldAttemptReset cfg cb now = false then
    (.rejected, cb)
  else
    (outcomeResult outcome,
     applyOutcome cfg
       (if cb.state = .opened then
          { cb with state := .halfOpen, half_open_calls := 0 }
        else cb)
       now outcome)

/-- Source: `CircuitBreaker.reset`. -/
def cbReset (cb : CBState) : CBState :=
  { cb with state := .closed, failure_count := 0, success_count := 0,
            half_open_calls := 0, last_failure_time := none }

/-- The configuration of spec scenario 2:
`threshold=2, timeout=1s, half_open_max=2`, breaker enabled. -/
def cbTestConfig : CBConfig :=
  { enabled := true, failure_threshold := 2, timeout_seconds := 1,
    half_open_max_calls := 2 }

/-- Breaker state after one failed call at time `t0`, starting from the
initial state. -/
def cbS1 (t0 : ℚ) : CBState := (cbCall cbTestConfig CBState.init t0 .failure).2

/-- Breaker state after two consecutive failed calls at `t0`, `t1`. -/
def cbS2 (t0 t1 : ℚ) : CBState := (cbCall cbTestConfig (cbS1 t0) t1 .failure).2

/-- Breaker state after the two failures and then a successful call at
`t3` (the call that transitions OPEN → HALF_OPEN). -/
def cbS4 (t0 t1 t3 : ℚ) : CBState :=
  (cbCall cbTestConfig (cbS2 t0 t1) t3 .success).2

/-! ## Retry handler — `gateway-service/app/core/retry.py`

`RetryHandler.execute_async` (the sync `execute` is identical up to
`asyncio.sleep` vs `time.sleep`).  Configuration fields are the values
resolved by `__init__`.  `backoff_factor` (a Python float) and
`max_delay_seconds` are represented as rationals; the wrapped call's
behaviour on the 0-indexed attempt `j` is `f j`; `retryable e` models
`isinstance(e, tuple(self.retryable_exceptions))`, the test performed by the
`except` clause. -/

structure RetrySettings where
  retry_enabled : Bool
  max_attempts : Nat
  backoff_factor : ℚ
  max_delay_seconds : ℚ
deriving Repr

/-- How `execute_async` ends: `ok` (the call returned), `raised` (an
exception propagated out), `noneReturned` (the loop body never ran —
`max_attempts = 0` — and the function fell through returning `None`). -/
inductive RetryResult (ε α : Type) where
  | ok (a : α)
  | raised (e : ε)
  | noneReturned
deriving DecidableEq, Repr

/-- The `for attempt in range(self.max_attempts)` loop of `execute_async`,
entered at attempt index `i` with `fuel = max_attempts - i` iterations
remaining.  Returns the outcome together with the list of back-off sleeps
performed, in order. -/
def retryLoop (rs : RetrySettings) (retryable : ε → Bool) (f : Nat → Except ε α) :
    Nat → Nat → RetryResult ε α × List ℚ
  | _, 0 => (.noneReturned, [])
  | i, fuel + 1 =>
    match f i with
    | .ok a => (.ok a, [])
    | .error e =>
      if retryable e then
        if i < rs.max_attempts - 1 then
          let r := retryLoop rs retryable f (i + 1) fuel
          (r.1, min (rs.backoff_factor ^ i) rs.max_delay_seconds :: r.2)
        else (.raised e, [])
      else (.raised e, [])

/-- Source: `RetryHandler.execute_async`. -/
def executeAsync (rs : RetrySettings) (retryable : ε → Bool)
    (f : Nat → Except ε α) : RetryResult ε α × List ℚ :=
  if rs.retry_enabled = false then
    ((match f 0 with | .ok a => .ok a | .error e => .raised e), [])
  else retryLoop rs retryable f 0 rs.max_attempts

/-- Test configuration for the retry witness: 3 attempts, backoff factor 2,
delay cap 10 seconds. -/
def retryTestSettings : RetrySettings :=
  { retry_enabled := true, max_attempts := 3, backoff_factor := 2,
    max_delay_seconds := 10 }

/-- A wrapped call that fails on every attempt, attempt `j` raising error
`j`. -/
def retryTestF : Nat → Except Nat Unit := fun j => .error j

/-! ## Router — `app/core/router.py` and `app/models/route.py`

String primitives are modelled over `String.data` (lists of characters),
mirroring the Python `str` operations used by the router: `str.split("/")`,
`str.endswith`, `str.startswith`, substring membership `"{" in path`. -/

/-- Python `str.split(sep)` for a one-character separator, over the
character list; `"".split(sep) = [""]`. -/
def splitOnChar (sep : Char) : List Char → List (List Char)
  | [] => [[]]
  | c :: cs =>
    match splitOnChar sep cs with
    | [] => [[]]
    | h :: t => if c = sep then [] :: h :: t else (c :: h) :: t

/-- Source: `path.split("/")`. -/
def pySplitSlash (s : String) : List (List Char) := splitOnChar '/' s.data

/-- Source: `len(path.split("/"))`. -/
def segmentCount (s : String) : Nat := (pySplitSlash s).length

/-- Python `s.endswith(suffix)`. -/
def pyEndsWith (s suffix : String) : Bool := List.isSuffixOf suffix.data s.data

/-- Python `s.startswith(pre)`. -/
def pyStartsWith (s pre : String) : Bool := List.isPrefixOf pre.data s.data

/-- The `"\x7b"` character (left curly brace), tested by `"{" in path`. -/
def braceChar : Char := Char.ofNat 123

/-- Source: `RouteConfig` (pydantic model in `app/models/route.py`), with its
declared defaults.  The `headers` dict is a string-to-string association
list. -/
structure RouteConfig where
  path : String
  service : String
  methods : List String
  auth_required : Bool
  rate_limit : Nat
  timeout : Nat
  strip_prefix : Bool
  rewrite_path : Option String
  headers : List (String × String)
deriving DecidableEq, Repr

/-- A `RouteConfig` from `path`, `service` and `methods` with the pydantic
field defaults. -/
def mkRouteConfig (path service : String) (methods : List String) : RouteConfig :=
  { path := path, service := service, methods := methods,
    auth_required := true, rate_limit := 100, timeout := 30,
    strip_prefix := false, rewrite_path := none, headers := [] }

/-- Source: `Route` (model wrapping a config with its computed priority). -/
structure Route where
  config : RouteConfig
  pattern : String
  priority : Int
deriving DecidableEq, Repr

/-- Source: `Router._calculate_priority`. -/
def calculatePriority (path : String) : Int :=
  let base : Int :=
    if (pyEndsWith path "/*" = true ∨ pyEndsWith path "/**" = true) then 0
    else 1000
  let withSegs : Int := base + (segmentCount path : Int) * 10
  if path.data.contains braceChar then withSegs - 50 else withSegs

/-- The kind-dependent part of `_calculate_priority`: the `+1000` exact
bonus (no wildcard ending) and the `-50` parameter penalty (a brace in the
pattern); `calculatePriority = priorityBonus + 10 * segments`. -/
def priorityBonus (path : String) : Int :=
  (if (pyEndsWith path "/*" = true ∨ pyEndsWith path "/**" = true) then 0
   else 1000)
  - (if path.data.contains braceChar then 50 else 0)

/-- Source: `Route.matches`. -/
def Route.matches (r : Route) (path method : String) : Bool :=
  if (r.config.methods.contains method) = false then false
  else if pyEndsWith r.config.path "/**" then
    List.isPrefixOf (r.config.path.data.take (r.config.path.data.length - 3)) path.data
  else if pyEndsWith r.config.path "/*" then
    List.isPrefixOf (r.config.path.data.take (r.config.path.data.length - 2)) path.data
  else
    (path = r.config.path) || pyStartsWith path (r.config.path ++ "/")

/-- The `Route(...)` construction in `Router._load_routes`. -/
def toRoute (cfg : RouteConfig) : Route :=
  { config := cfg, pattern := cfg.path, priority := calculatePriority cfg.path }

/-- Stable descending insertion: the new element goes after every already
placed element of strictly greater priority, before the rest. -/
def insertByPriorityDesc (r : Route) : List Route → List Route
  | [] => [r]
  | x :: xs =>
    if r.priority < x.priority then x :: insertByPriorityDesc r xs
    else r :: x :: xs

/-- The `self.routes.sort(key=lambda r: r.priority, reverse=True)` step of
`Router._load_routes`: Python's `list.sort` is stable, so among equal
priorities the file order is kept; insertion sort with a strict comparison
realises exactly that order. -/
def sortRoutesDesc : List Route → List Route
  | [] => []
  | x :: xs => insertByPriorityDesc x (sortRoutesDesc xs)

/-- Source: `Router._load_routes` on an already parsed YAML route list (file
reading and YAML parsing elided): build the `Route` objects in file order,
then sort by priority, descending, stably. -/
def loadRoutes (cfgs : List RouteConfig) : List Route :=
  sortRoutesDesc (cfgs.map toRoute)

/-- Source: `Router.find_route`: first match in the sorted list. -/
def findRoute (routes : List Route) (path method : String) : Option Route :=
  routes.find? (fun r => r.matches path method)

/-- Counterexample route: exact pattern `/a` (priority `1000 + 2*10 = 1020`). -/
def cexRouteA : RouteConfig := mkRouteConfig "/a" "service-x" ["GET"]

/-- Counterexample route: parameterized pattern with 8 segments
(priority `1000 + 8*10 - 50 = 1030`). -/
def cexRouteB : RouteConfig := mkRouteConfig "/a/{x}/b/c/d/e/f" "service-y" ["GET"]

/-! ## Rate limiter — `app/middleware/rate_limit.py`

The settings fields consulted by the middleware (`app/settings.py`).
The Redis client is modelled as an association-list counter store plus
failure injection: `failGet` / `failPipe` make the corresponding client
operation (the `GET`, resp. the pipelined `INCR`+`EXPIRE`) raise, which the
`try/except` of `check_rate_limit` turns into fail-open.  Key TTLs are not
modelled: the stated properties stay within a single window.  The durable
(MySQL) audit writes are elided: `_store_rate_limit_record_async` catches
every exception internally and its outcome never influences the returned
pair. -/

structure RLSettings where
  rate_limit_enabled : Bool
  rate_limit_per_minute : Nat
  rate_limit_mysql_enabled : Bool
  rate_limit_mysql_async : Bool
  api_key_header : String
deriving Repr

structure RedisKV where
  counters : List (String × Nat)
  failGet : Bool
  failPipe : Bool
deriving DecidableEq, Repr

/-- Redis `GET` on the counter store. -/
def kvGet (kv : List (String × Nat)) (k : String) : Option Nat :=
  (kv.find? (fun p => p.1 = k)).map (fun p => p.2)

/-- Store a counter value (the effect of `INCR` writing `new_count`). -/
def kvSet : List (String × Nat) → String → Nat → List (String × Nat)
  | [], k, v => [(k, v)]
  | (k', v') :: rest, k, v =>
    if k' = k then (k, v) :: rest else (k', v') :: kvSet rest k v

/-- Source: `RateLimitMiddleware._get_rate_limit_key`.  A `None` **or empty** route
path yields the short key (Python truthiness of `route_path`). -/
def getRateLimitKey (identifier window : String) (route_path : Option String) :
    String :=
  match route_path with
  | some rp =>
    if rp = "" then "rate_limit:" ++ identifier ++ ":" ++ window
    else "rate_limit:" ++ identifier ++ ":" ++ window ++ ":" ++ rp
  | none => "rate_limit:" ++ identifier ++ ":" ++ window

/-- The window name computed at the top of `check_rate_limit`. -/
def windowName (window_seconds : Nat) : String :=
  if window_seconds = 60 then "minute"
  else if window_seconds = 3600 then "hour"
  else "day"

/-- The `try:` block of `check_rate_limit`: read the count, deny at the
limit, otherwise `INCR`+`EXPIRE` and return the remaining allowance.
`.error ()` is any exception raised by the Redis client. -/
def tryCheckRateLimit (redis : RedisKV) (identifier : String) (limit : Nat)
    (window_seconds : Nat) (route_path : Option String) :
    Except Unit ((Bool × Nat) × RedisKV) :=
  let key := getRateLimitKey identifier (windowName window_seconds) route_path
  if redis.failGet then .error ()
  else
    let count := (kvGet redis.counters key).getD 0
    if limit ≤ count then .ok ((false, 0), redis)
    else if redis.failPipe then .error ()
    else
      let new_count := count + 1
      .ok ((true, max 0 (limit - new_count)),
           { redis with counters := kvSet redis.counters key new_count })

/-- Source: `RateLimitMiddleware.check_rate_limit`: disabled ⇒ `(True, limit)`;
any Redis exception ⇒ `(True, limit)` (fail open); otherwise the result of
the `try:` block. -/
def checkRateLimit (s : RLSettings) (redis : RedisKV) (identifier : String)
    (limit : Nat) (window_seconds : Nat) (route_path : Option String) :
    (Bool × Nat) × RedisKV :=
  if s.rate_limit_enabled = false then ((true, limit), redis)
  else
    match tryCheckRateLimit redis identifier limit window_seconds route_path with
    | .ok r => r
    | .error _ => ((true, limit), redis)

/-- Redis state after `n` successive `check_rate_limit` calls with the same
identifier, limit, window and route. -/
def rlState (s : RLSettings) (redis : RedisKV) (identifier : String)
    (limit window_seconds : Nat) (route_path : Option String) : Nat → RedisKV
  | 0 => redis
  | n + 1 =>
    (checkRateLimit s (rlState s redis identifier limit window_seconds route_path n)
      identifier limit window_seconds route_path).2

/-- The `(is_allowed, remaining)` pair returned by call number `n + 1`
(0-indexed `n`) of a run of successive `check_rate_limit` calls. -/
def rlCallResult (s : RLSettings) (redis : RedisKV) (identifier : String)
    (limit window_seconds : Nat) (route_path : Option String) (n : Nat) :
    Bool × Nat :=
  (checkRateLimit s (rlState s redis identifier limit window_seconds route_path n)
    identifier limit window_seconds route_path).1

/-- Rate-limiter settings for the witnesses: enabled, no MySQL tier. -/
def rlTestSettings : RLSettings :=
  { rate_limit_enabled := true, rate_limit_per_minute := 100,
    rate_limit_mysql_enabled := false, rate_limit_mysql_async := false,
    api_key_header := "X-API-Key" }

/-- A response of the gateway (status and headers), as far as the
rate-limit claims observe it. -/
structure GwResponse where
  status : Nat
  headers : List (String × String)
deriving DecidableEq, Repr

/-- The rate-limiting step of `gateway_handler` (`app/main.py`): when the
limiter denies, `HTTPException(429)` is raised *before*
`request.state.rate_limit_remaining` is assigned, and the rendered 429
response carries no extra headers; when allowed, the remaining count is
stored on the request state (`some`) and the handler continues as `cont`.
The second component is the final request-state value of
`rate_limit_remaining`. -/
def gatewayRateLimitPhase (rl : Bool × Nat) (st : Option Nat)
    (cont : Option Nat → GwResponse) : GwResponse × Option Nat :=
  if rl.1 = false then ({ status := 429, headers := [] }, st)
  else (cont (some rl.2), some rl.2)

/-- The response tail of `RateLimitMiddleware.dispatch`: the
`X-RateLimit-Remaining` header is appended iff
`request.state.rate_limit_remaining` was set (`hasattr` check). -/
def addRateLimitHeader (resp : GwResponse) (st : Option Nat) : GwResponse :=
  match st with
  | some r =>
    { resp with headers := resp.headers ++ [("X-RateLimit-Remaining", toString r)] }
  | none => resp

/-- The dispatch slice for one request: `rate_limit_remaining` starts
absent, the handler's rate-limit phase runs, then the middleware appends
the header if the attribute was set. -/
def rateLimitPipeline (rl : Bool × Nat) (cont : Option Nat → GwResponse) :
    GwResponse :=
  let r := gatewayRateLimitPhase rl none cont
  addRateLimitHeader r.1 r.2

/-- Redis contents for the C8 counterexample: the counter of the minute
window for `ip:203.0.113.9` on route `/x` already equals the limit `5`. -/
def c8Redis : RedisKV :=
  { counters := [("rate_limit:ip:203.0.113.9:minute:/x", 5)],
    failGet := false, failPipe := false }

/-! ## Load balancer — `gateway-service/app/core/load_balancer.py`

`ServiceInstance` is the class in `app/core/discovery.py` (the `metadata`
dict and `last_health_check`, which the balancer never reads, are elided).
Python dicts keyed by strings are association lists; `random.choice` is an
oracle argument consulted only by the `random` strategy. -/

structure ServiceInstance where
  url : String
  weight : Nat
  healthy : Bool
  failure_count : Nat
deriving DecidableEq, Repr

/-- Generic string-keyed dictionary read. -/
def alistGet {β : Type _} (l : List (String × β)) (k : String) : Option β :=
  (l.find? (fun p => p.1 = k)).map (fun p => p.2)

/-- Generic string-keyed dictionary write. -/
def alistSet {β : Type _} : List (String × β) → String → β → List (String × β)
  | [], k, v => [(k, v)]
  | (k', v') :: rest, k, v =>
    if k' = k then (k, v) :: rest else (k', v') :: alistSet rest k v

structure LoadBalancer where
  strategy : String
  round_robin_counters : List (String × Nat)
  connection_counts : List (String × List (String × Nat))
deriving DecidableEq, Repr

/-- Source: `LoadBalancer.__init__`: `self.strategy = strategy or
settings.load_balancer_strategy` (Python truthiness: `None` or `""` falls
back to the settings value); both counter dicts start empty. -/
def LoadBalancer.init (settings_strategy : String) (strategy : Option String) :
    LoadBalancer :=
  { strategy :=
      match strategy with
      | some s => if s = "" then settings_strategy else s
      | none => settings_strategy,
    round_robin_counters := [], connection_counts := [] }

/-- Source: `LoadBalancer._round_robin` (callers pass a non-empty list; the `get?`
is `some` there). -/
def roundRobin (lb : LoadBalancer) (instances : List ServiceInstance)
    (service_name : String) : Option ServiceInstance × LoadBalancer :=
  let c := (alistGet lb.round_robin_counters service_name).getD 0
  (instances.get? (c % instances.length),
   { lb with
     round_robin_counters :=
       alistSet lb.round_robin_counters service_name (c + 1) })

/-- Python `min(instances, key=lambda inst: counts.get(inst.url, 0))`: the
first instance attaining the minimal count. -/
def minByConn (counts : List (String × Nat)) :
    List ServiceInstance → Option ServiceInstance
  | [] => none
  | x :: xs =>
    match minByConn counts xs with
    | none => some x
    | some y =>
      if (alistGet counts y.url).getD 0 < (alistGet counts x.url).getD 0 then
        some y
      else some x

/-- Source: `LoadBalancer._least_connections`. -/
def leastConnections (lb : LoadBalancer) (instances : List ServiceInstance)
    (service_name : String) : Option ServiceInstance × LoadBalancer :=
  let counts :=
    match alistGet lb.connection_counts service_name with
    | some m => m
    | none => instances.map (fun i => (i.url, 0))
  match minByConn counts instances with
  | none => (none, lb)
  | some inst =>
    (some inst,
     { lb with
       connection_counts :=
         alistSet lb.connection_counts service_name
           (alistSet counts inst.url ((alistGet counts inst.url).getD 0 + 1)) })

/-- The cumulative-weight walk of `_weighted_round_robin`. -/
def weightedWalk : List ServiceInstance → Nat → Nat → Option ServiceInstance
  | [], _, _ => none
  | x :: xs, current, cumulative =>
    if current < cumulative + x.weight then some x
    else weightedWalk xs current (cumulative + x.weight)

/-- Source: `LoadBalancer._weighted_round_robin`. -/
def weightedRoundRobin (lb : LoadBalancer) (instances : List ServiceInstance)
    (service_name : String) : Option ServiceInstance × LoadBalancer :=
  let total := (instances.map (fun i => i.weight)).sum
  if total = 0 then roundRobin lb instances service_name
  else
    let c := (alistGet lb.round_robin_counters service_name).getD 0
    ((match weightedWalk instances (c % total) 0 with
      | some inst => some inst
      | none => instances.head?),
     { lb with
       round_robin_counters :=
         alistSet lb.round_robin_counters service_name (c + 1) })

/-- Source: `LoadBalancer.select_instance`. -/
def selectInstance (lb : LoadBalancer)
    (choice : List ServiceInstance → Option ServiceInstance)
    (instances : List ServiceInstance) (service_name : String) :
    Option ServiceInstance × LoadBalancer :=
  let healthy_instances := instances.filter (fun i => i.healthy)
  if healthy_instances.isEmpty then (none, lb)
  else if healthy_instances.length = 1 then (healthy_instances.head?, lb)
  else if lb.strategy = "round_robin" then
    roundRobin lb healthy_instances service_name
  else if lb.strategy = "least_connections" then
    leastConnections lb healthy_instances service_name
  else if lb.strategy = "weighted_round_robin" then
    weightedRoundRobin lb healthy_instances service_name
  else if lb.strategy = "random" then (choice healthy_instances, lb)
  else roundRobin lb healthy_instances service_name

/-- The selection step of `gateway_handler` (`app/main.py`): a **new**
`LoadBalancer()` is constructed inside the handler for every request, so
the selection runs on empty counters. -/
def gatewaySelectInstance (settings_strategy : String)
    (choice : List ServiceInstance → Option ServiceInstance)
    (instances : List ServiceInstance) (service_name : String) :
    Option ServiceInstance :=
  (selectInstance (LoadBalancer.init settings_strategy none) choice
    instances service_name).1

/-- The per-request selections over a sequence of requests, each given by
its discovered instance list and service name; every request constructs its
own balancer. -/
def gatewaySelections (settings_strategy : String)
    (choice : List ServiceInstance → Option ServiceInstance)
    (reqs : List (List ServiceInstance × String)) : List (Option ServiceInstance) :=
  reqs.map (fun r => gatewaySelectInstance settings_strategy choice r.1 r.2)

/-! ## Token manager — `app/utils/token_manager.py`

The manager's Redis keys live in three namespaces whose literal prefixes
(`refresh_token:`, `user_tokens:`, `token_family:`) differ pairwise at
their first character, so a key of one namespace never collides with a key
of another and keys within a namespace are injective in their suffix; the
keyspace is therefore represented by the tagged type `TMKey`, whose
constructor injectivity/disjointness mirrors exactly that of the string
keys.  `json.dumps`/`json.loads` of the stored record round-trip to the
identity on `TokenRecord`.  TTLs (`setex`/`expire`) are not modelled — no
time passes inside the stated claims. -/

/-- The decoded `token_data` JSON object. -/
structure TokenRecord where
  user_id : String
  created_at : String
  token_family : String
deriving DecidableEq, Repr

inductive TMKey where
  | refreshToken (token : String)
  | userTokens (user_id : String)
  | tokenFamily (family : String)
deriving DecidableEq, Repr

/-- A Redis value of the token manager: a record JSON string or a set. -/
inductive TMVal where
  | record (r : TokenRecord)
  | members (s : List String)
deriving DecidableEq, Repr

/-- Redis `GET`. -/
def tmGet (kv : List (TMKey × TMVal)) (k : TMKey) : Option TMVal :=
  (kv.find? (fun p => p.1 = k)).map (fun p => p.2)

/-- Redis `SET`/`SETEX` (TTL elided). -/
def tmSet : List (TMKey × TMVal) → TMKey → TMVal → List (TMKey × TMVal)
  | [], k, v => [(k, v)]
  | (k', v') :: rest, k, v =>
    if k' = k then (k, v) :: rest else (k', v') :: tmSet rest k v

/-- Redis `DELETE`. -/
def tmDelete (kv : List (TMKey × TMVal)) (k : TMKey) : List (TMKey × TMVal) :=
  kv.filter (fun p => decide ¬(p.1 = k))

/-- Redis `SADD` (creating the set when the key is absent). -/
def tmSAdd (kv : List (TMKey × TMVal)) (k : TMKey) (member : String) :
    List (TMKey × TMVal) :=
  match tmGet kv k with
  | some (.members s) =>
    if member ∈ s then kv else tmSet kv k (.members (s ++ [member]))
  | _ => tmSet kv k (.members [member])

/-- Source: `TokenManager.store_refresh_token`.  `old_token` and `token_family` are
subject to Python truthiness (`None` or `""` count as absent); `now` is
`datetime.utcnow().isoformat()` and `fresh_uuid` the `str(uuid.uuid4())`
used when no family is supplied.  The function returns `True` together with
the new store contents. -/
def storeRefreshToken (kv : List (TMKey × TMVal)) (user_id refresh_token : String)
    (expires_in_seconds : Nat) (token_family : Option String)
    (old_token : Option String) (now fresh_uuid : String) :
    Bool × List (TMKey × TMVal) :=
  let kv1 :=
    match old_token with
    | some ot => if ot = "" then kv else tmDelete kv (.refreshToken ot)
    | none => kv
  let fam :=
    match token_family with
    | some fm => if fm = "" then fresh_uuid else fm
    | none => fresh_uuid
  let kv2 := tmSet kv1 (.refreshToken refresh_token)
    (.record { user_id := user_id, created_at := now, token_family := fam })
  let kv3 := tmSAdd kv2 (.userTokens user_id) refresh_token
  let kv4 :=
    match token_family with
    | some fm => if fm = "" then kv3 else tmSAdd kv3 (.tokenFamily fm) refresh_token
    | none => kv3
  (true, kv4)

/-- Source: `TokenManager.validate_refresh_token`. -/
def validateRefreshToken (kv : List (TMKey × TMVal)) (refresh_token : String) :
    Option TokenRecord :=
  match tmGet kv (.refreshToken refresh_token) with
  | some (.record r) => some r
  | _ => none

/-! ## Request body across rate limiting and dispatch

`RateLimitMiddleware._extract_login_identifier` / `dispatch`
(`app/middleware/rate_limit.py`) and the `body = await request.body()` read
of `gateway_handler` (`app/main.py`).

Modelled from the spec: the transport semantics of `await request.body()`
is framework code (Starlette), not part of this repository's sources.  Per
the spec — "The request body, once consumed by C9 for login-identifier
extraction, is cached and re-readable by C10 without loss.  Body is read at
most once from the transport." — the framework is modelled as: a `body()`
call in the middleware drains the transport stream once, counts as one
transport read, and caches the bytes; a `body()` call downstream replays
the middleware's cached bytes when they exist and otherwise drains the
transport itself.  Everything else (`request.state._body`,
`request.state.login_identifier`, the login/register path test, the JSON
field extraction with Python-truthy chaining) is embedded from the source.
JSON parsing is an oracle argument `parse`; the claims do not depend on its
result.  Bytes are `List UInt8`. -/

structure BodyState where
  transport_body : List UInt8
  transport_reads : Nat
  middleware_cache : Option (List UInt8)
  state_body : Option (List UInt8)
  login_identifier : Option String
deriving DecidableEq, Repr

/-- Source: `await request.body()` as seen by the rate-limit middleware. -/
def requestBodyMw (s : BodyState) : List UInt8 × BodyState :=
  match s.middleware_cache with
  | some b => (b, s)
  | none =>
    (s.transport_body,
     { s with
       transport_reads := s.transport_reads + 1,
       middleware_cache := some s.transport_body })

/-- Source: `await request.body()` as seen by the downstream `gateway_handler`:
replays the bytes consumed (and cached) by the middleware, else drains the
transport. -/
def requestBodyHandler (s : BodyState) : List UInt8 × BodyState :=
  match s.middleware_cache with
  | some b => (b, s)
  | none =>
    (s.transport_body, { s with transport_reads := s.transport_reads + 1 })

/-- Substring membership over character lists (Python `needle in hay`). -/
def listIsInfixOf (needle : List Char) : List Char → Bool
  | [] => needle.isEmpty
  | c :: cs => needle.isPrefixOf (c :: cs) || listIsInfixOf needle cs

/-- The login/register path test shared by `_extract_login_identifier` and
`dispatch`: `"/auth/login" in path.lower() or "/auth/register" in path.lower()`. -/
def isAuthBodyPath (path : String) : Bool :=
  listIsInfixOf "/auth/login".data (path.data.map Char.toLower)
    || listIsInfixOf "/auth/register".data (path.data.map Char.toLower)

/-- Source: `body_data.get(k)` under Python truthiness (an empty string is falsy
and falls through the `or` chain). -/
def jsonGetTruthy (m : List (String × String)) (k : String) : Option String :=
  match alistGet m k with
  | some v => if v = "" then none else some v
  | none => none

/-- Source: `RateLimitMiddleware._extract_login_identifier`. -/
def extractLoginIdentifier (parse : List UInt8 → Option (List (String × String)))
    (path : String) (s : BodyState) : Option String × BodyState :=
  if isAuthBodyPath path = false then (none, s)
  else
    match s.login_identifier with
    | some li => (some li, s)
    | none =>
      let r :=
        match s.state_body with
        | some b => (b, s)
        | none =>
          let rd := requestBodyMw s
          (rd.1, { rd.2 with state_body := some rd.1 })
      let body := r.1
      let s1 := r.2
      if body.isEmpty then (none, s1)
      else
        match parse body with
        | none => (none, s1)
        | some m =>
          match jsonGetTruthy m "username" <|> jsonGetTruthy m "user_name"
              <|> jsonGetTruthy m "user" with
          | some username =>
            (some username, { s1 with login_identifier := some username })
          | none =>
            match jsonGetTruthy m "email" <|> jsonGetTruthy m "email_address" with
            | some email => (some email, { s1 with login_identifier := some email })
            | none => (none, s1)

/-- The body-relevant part of `RateLimitMiddleware.dispatch`: for
login/register paths, extract the login identifier (reading and caching the
body); otherwise leave the request untouched. -/
def rateLimitDispatchBody (parse : List UInt8 → Option (List (String × String)))
    (path : String) (s : BodyState) : BodyState :=
  if isAuthBodyPath path then (extractLoginIdentifier parse path s).2 else s

/-- Source: `gateway_handler`'s `body = await request.body()` — the bytes it then
forwards to the backend. -/
def pipelineForwardedBody (parse : List UInt8 → Option (List (String × String)))
    (path : String) (s : BodyState) : List UInt8 × BodyState :=
  requestBodyHandler (rateLimitDispatchBody parse path s)

/-! ## Theorems -/

/-- Reading the token store under a cons cell. -/
theorem tmGet_cons (a : TMKey) (b : TMVal) (l : List (TMKey × TMVal)) (k : TMKey) :
    tmGet ((a, b) :: l) k = if a = k then some b else tmGet l k := by
  by_cases h : a = k <;> simp [tmGet, List.find?, h]

/-- Reading back the value just written. -/
theorem tmGet_tmSet_self (kv : List (TMKey × TMVal)) (k : TMKey) (v : TMVal) :
    tmGet (tmSet kv k v) k = some v := by
  induction kv with
  | nil => simp [tmSet, tmGet_cons]
  | cons p rest ih =>
    obtain ⟨a, b⟩ := p
    by_cases h : a = k
    · simp [tmSet, h, tmGet_cons]
    · simp [tmSet, h, tmGet_cons, ih]

/-- Writing one key does not change the reading of another. -/
theorem tmGet_tmSet_ne (kv : List (TMKey × TMVal)) (k k' : TMKey) (v : TMVal)
    (h : k' ≠ k) : tmGet (tmSet kv k v) k' = tmGet kv k' := by
  induction kv with
  | nil => simp [tmSet, tmGet_cons, tmGet, Ne.symm h]
  | cons p rest ih =>
    obtain ⟨a, b⟩ := p
    by_cases hak : a = k
    · subst hak
      simp [tmSet, tmGet_cons, Ne.symm h]
    · by_cases hak' : a = k'
      · simp [tmSet, hak, tmGet_cons, hak', h]
      · simp [tmSet, hak, tmGet_cons, hak', ih]

/-- A deleted key reads back as absent. -/
theorem tmGet_tmDelete_self (kv : List (TMKey × TMVal)) (k : TMKey) :
    tmGet (tmDelete kv k) k = none := by
  induction kv with
  | nil => simp [tmDelete, tmGet]
  | cons p rest ih =>
    obtain ⟨a, b⟩ := p
    by_cases h : a = k
    · simpa [tmDelete, List.filter, h] using ih
    · simpa [tmDelete, List.filter, h, tmGet_cons] using ih

/-- Deleting one key does not change the reading of another. -/
theorem tmGet_tmDelete_ne (kv : List (TMKey × TMVal)) (k k' : TMKey)
    (h : k' ≠ k) : tmGet (tmDelete kv k) k' = tmGet kv k' := by
  induction kv with
  | nil => simp [tmDelete]
  | cons p rest ih =>
    obtain ⟨a, b⟩ := p
    by_cases hak : a = k
    · subst hak
      simpa [tmDelete, List.filter, tmGet_cons, Ne.symm h] using ih
    · by_cases hak' : a = k'
      · simp [tmDelete, List.filter, hak, tmGet_cons, hak', h]
      · simpa [tmDelete, List.filter, hak, tmGet_cons, hak'] using ih

/-- A `SADD` on one key does not change the reading of another. -/
theorem tmGet_tmSAdd_ne (kv : List (TMKey × TMVal)) (k k' : TMKey) (m : String)
    (h : k' ≠ k) : tmGet (tmSAdd kv k m) k' = tmGet kv k' := by
  rw [tmSAdd]
  match tmGet kv k with
  | some (.members s) =>
    by_cases hm : m ∈ s
    · simp [hm]
    · simp [hm, tmGet_tmSet_ne kv k k' _ h]
  | some (.record r) => exact tmGet_tmSet_ne kv k k' _ h
  | none => exact tmGet_tmSet_ne kv k k' _ h

/-- C6 (amended): for any starting store, distinct tokens `t1 ≠ t2` with
`t1` **non-empty**, and a **non-empty** family `f`: after
`store(u, t1, family=f)` and then `store(u, t2, family=f, old_token=t1)`,
validation of `t1` returns nothing and validation of `t2` returns the
record with `user_id = u` and `token_family = f`.  (The non-emptiness
provisos are forced by Python truthiness: an empty `old_token` is treated
as absent — see the counterexample — and an empty family is replaced by a
fresh UUID.) -/
theorem token_rotation_invalidates_old (kv0 : List (TMKey × TMVal))
    (u f t1 t2 : String) (ttl1 ttl2 : Nat) (now1 now2 uuid1 uuid2 : String)
    (hne : t1 ≠ t2) (ht1 : t1 ≠ "") (hf : f ≠ "") :
    validateRefreshToken
      (storeRefreshToken
        (storeRefreshToken kv0 u t1 ttl1 (some f) none now1 uuid1).2
        u t2 ttl2 (some f) (some t1) now2 uuid2).2 t1 = none ∧
    validateRefreshToken
      (storeRefreshToken
        (storeRefreshToken kv0 u t1 ttl1 (some f) none now1 uuid1).2
        u t2 ttl2 (some f) (some t1) now2 uuid2).2 t2
      = some { user_id := u, created_at := now2, token_family := f } := by
  set kvA := (storeRefreshToken kv0 u t1 ttl1 (some f) none now1 uuid1).2 with hkvA
  have e2 : (storeRefreshToken kvA u t2 ttl2 (some f) (some t1) now2 uuid2).2
      = tmSAdd
          (tmSAdd
            (tmSet (tmDelete kvA (.refreshToken t1)) (.refreshToken t2)
              (.record { user_id := u, created_at := now2, token_family := f }))
            (.userTokens u) t2)
          (.tokenFamily f) t2 := by
    simp only [storeRefreshToken]
    rw [if_neg ht1, if_neg hf, if_neg hf]
  have h12 : TMKey.refreshToken t1 ≠ TMKey.refreshToken t2 := by
    intro h
    exact hne (TMKey.refreshToken.inj h)
  constructor
  · rw [validateRefreshToken, e2,
      tmGet_tmSAdd_ne _ _ _ _ (by simp),
      tmGet_tmSAdd_ne _ _ _ _ (by simp),
      tmGet_tmSet_ne _ _ _ _ h12,
      tmGet_tmDelete_self]
  · rw [validateRefreshToken, e2,
      tmGet_tmSAdd_ne _ _ _ _ (by simp),
      tmGet_tmSAdd_ne _ _ _ _ (by simp),
      tmGet_tmSet_self]

/-- Witness for `token_rotation_invalidates_old`: empty initial store,
`u = "u1"`, family `"fam1"`, rotation from `"tok1"` to `"tok2"`. -/
theorem token_rotation_invalidates_old_witness :
    (("tok1" : String) ≠ "tok2") ∧ (("fam1" : String) ≠ "") ∧
    (validateRefreshToken
      (storeRefreshToken
        (storeRefreshToken [] "u1" "tok1" 3600 (some "fam1") none "T1" "U1").2
        "u1" "tok2" 3600 (some "fam1") (some "tok1") "T2" "U2").2 "tok1" = none ∧
     validateRefreshToken
      (storeRefreshToken
        (storeRefreshToken [] "u1" "tok1" 3600 (some "fam1") none "T1" "U1").2
        "u1" "tok2" 3600 (some "fam1") (some "tok1") "T2" "U2").2 "tok2"
      = some { user_id := "u1", created_at := "T2", token_family := "fam1" }) :=
  ⟨by decide, by decide,
   token_rotation_invalidates_old [] "u1" "fam1" "tok1" "tok2" 3600 3600
     "T1" "T2" "U1" "U2" (by decide) (by decide) (by decide)⟩

/-- C6 counterexample: with the degenerate (but per the claim admissible)
old token `t1 = ""` — distinct from `t2` and with a non-empty family —
Python truthiness makes `store` skip the `old_token` deletion, so after the
rotation `validate("")` still returns the first record instead of nothing;
likewise, with the admissible empty family `f = ""` the stored record
carries a fresh UUID instead of `f`.  The claim fails as universally
stated. -/
theorem token_rotation_empty_old_token_counterexample :
    (("" : String) ≠ "tok2") ∧ (("fam1" : String) ≠ "") ∧
    (validateRefreshToken
      (storeRefreshToken
        (storeRefreshToken [] "u1" "" 3600 (some "fam1") none "T1" "U1").2
        "u1" "tok2" 3600 (some "fam1") (some "") "T2" "U2").2 ""
      = some { user_id := "u1", created_at := "T1", token_family := "fam1" }) ∧
    (("t1" : String) ≠ "t2") ∧
    (validateRefreshToken
      (storeRefreshToken
        (storeRefreshToken [] "u1" "t1" 3600 (some "") none "T1" "U1").2
        "u1" "t2" 3600 (some "") (some "t1") "T2" "U2").2 "t2"
      = some { user_id := "u1", created_at := "T2", token_family := "U2" }) := by
  refine ⟨by decide, by decide, by decide, by decide, by decide⟩

/-- One `check_rate_limit` call on a working Redis: denies at the limit,
otherwise increments and returns the remaining allowance. -/
theorem checkRateLimit_step (s : RLSettings) (st : RedisKV)
    (identifier : String) (limit window_seconds : Nat)
    (route_path : Option String)
    (hen : s.rate_limit_enabled = true)
    (hg : st.failGet = false) (hp : st.failPipe = false)
    (key : String)
    (hkey : key = getRateLimitKey identifier (windowName window_seconds) route_path)
    (count : Nat)
    (hcount : count = (kvGet st.counters key).getD 0) :
    checkRateLimit s st identifier limit window_seconds route_path
      = if limit ≤ count then ((false, 0), st)
        else ((true, limit - (count + 1)),
              { st with counters := kvSet st.counters key (count + 1) }) := by
  rw [checkRateLimit, if_neg (by simp [hen]), tryCheckRateLimit]
  simp only [hg, hp, Bool.false_eq_true, if_false, ← hkey, ← hcount]
  by_cases hc : limit ≤ count
  · simp [hc]
  · simp [hc, Nat.zero_max]

/-- Reading an association-list entry under a cons cell. -/
theorem kvGet_cons (a : String) (b : Nat) (l : List (String × Nat)) (k : String) :
    kvGet ((a, b) :: l) k = if a = k then some b else kvGet l k := by
  by_cases h : a = k <;> simp [kvGet, List.find?, h]

/-- Reading back the counter just written. -/
theorem kvGet_kvSet_self (kv : List (String × Nat)) (k : String) (v : Nat) :
    kvGet (kvSet kv k v) k = some v := by
  induction kv with
  | nil => simp [kvSet, kvGet_cons]
  | cons p rest ih =>
    obtain ⟨a, b⟩ := p
    by_cases h : a = k
    · simp [kvSet, h, kvGet_cons]
    · simp [kvSet, h, kvGet_cons, ih]

/-- After `n ≤ limit` successive calls on a working Redis whose window key
was initially absent, the Redis client still works and the counter equals
`n`. -/
theorem rlState_invariant (s : RLSettings) (redis : RedisKV)
    (identifier : String) (limit window_seconds : Nat)
    (route_path : Option String)
    (hen : s.rate_limit_enabled = true)
    (hg : redis.failGet = false) (hp : redis.failPipe = false)
    (h0 : kvGet redis.counters
      (getRateLimitKey identifier (windowName window_seconds) route_path) = none) :
    ∀ n, n ≤ limit →
      (rlState s redis identifier limit window_seconds route_path n).failGet = false ∧
      (rlState s redis identifier limit window_seconds route_path n).failPipe = false ∧
      (kvGet (rlState s redis identifier limit window_seconds route_path n).counters
        (getRateLimitKey identifier (windowName window_seconds) route_path)).getD 0 = n := by
  intro n
  induction n with
  | zero => intro _; exact ⟨hg, hp, by simp [rlState, h0]⟩
  | succ m ih =>
    intro hle
    have ihm := ih (by omega)
    have hstep := checkRateLimit_step s
      (rlState s redis identifier limit window_seconds route_path m)
      identifier limit window_seconds route_path hen ihm.1 ihm.2.1
      (getRateLimitKey identifier (windowName window_seconds) route_path) rfl
      m ihm.2.2.symm
    rw [rlState, hstep, if_neg (by omega)]
    exact ⟨ihm.1, ihm.2.1, by simp [kvGet_kvSet_self]⟩

/-- C5: in every `check_rate_limit` invocation in which the Redis client
raises (the `try:` block errors out), the call returns `(True, limit)` —
the request is allowed, the Redis state is untouched, and no error
propagates (the function returns normally). -/
theorem check_rate_limit_fail_open (s : RLSettings) (redis : RedisKV)
    (identifier : String) (limit window_seconds : Nat)
    (route_path : Option String)
    (hen : s.rate_limit_enabled = true)
    (hfail : tryCheckRateLimit redis identifier limit window_seconds route_path
      = .error ()) :
    checkRateLimit s redis identifier limit window_seconds route_path
      = ((true, limit), redis) := by
  rw [checkRateLimit, if_neg (by simp [hen]), hfail]

/-- Witness for `check_rate_limit_fail_open`: a Redis client whose `GET`
raises. -/
theorem check_rate_limit_fail_open_witness :
    (rlTestSettings.rate_limit_enabled = true) ∧
    (tryCheckRateLimit (RedisKV.mk [] true false) "user:42" 10 60 none
      = .error ()) ∧
    (checkRateLimit rlTestSettings (RedisKV.mk [] true false) "user:42" 10 60 none
      = ((true, 10), RedisKV.mk [] true false)) :=
  ⟨rfl, rfl,
   check_rate_limit_fail_open rlTestSettings (RedisKV.mk [] true false)
     "user:42" 10 60 none rfl rfl⟩

/-- C7: for a fixed identifier and limit `L` within one window (key
initially absent, Redis working), the `i`-th call (1-indexed, `i ≤ L`)
returns `(True, L - i)` — so the remaining values decrease strictly
`L-1, L-2, …, 0` — and call number `L + 1` is denied with `(False, 0)`. -/
theorem check_rate_limit_window_monotone (s : RLSettings) (redis : RedisKV)
    (identifier : String) (limit window_seconds : Nat)
    (route_path : Option String)
    (hen : s.rate_limit_enabled = true)
    (hg : redis.failGet = false) (hp : redis.failPipe = false)
    (h0 : kvGet redis.counters
      (getRateLimitKey identifier (windowName window_seconds) route_path) = none)
    (i : Nat) (h1 : 1 ≤ i) (h2 : i ≤ limit) :
    rlCallResult s redis identifier limit window_seconds route_path (i - 1)
      = (true, limit - i) ∧
    rlCallResult s redis identifier limit window_seconds route_path limit
      = (false, 0) := by
  constructor
  · have inv := rlState_invariant s redis identifier limit window_seconds
      route_path hen hg hp h0 (i - 1) (by omega)
    have hstep := checkRateLimit_step s
      (rlState s redis identifier limit window_seconds route_path (i - 1))
      identifier limit window_seconds route_path hen inv.1 inv.2.1
      (getRateLimitKey identifier (windowName window_seconds) route_path) rfl
      (i - 1) inv.2.2.symm
    rw [rlCallResult, hstep, if_neg (by omega)]
    rw [show i - 1 + 1 = i from by omega]
  · have inv := rlState_invariant s redis identifier limit window_seconds
      route_path hen hg hp h0 limit (le_refl limit)
    have hstep := checkRateLimit_step s
      (rlState s redis identifier limit window_seconds route_path limit)
      identifier limit window_seconds route_path hen inv.1 inv.2.1
      (getRateLimitKey identifier (windowName window_seconds) route_path) rfl
      limit inv.2.2.symm
    rw [rlCallResult, hstep, if_pos (le_refl limit)]

/-- Witness for `check_rate_limit_window_monotone`: limit 2, first call
returns `(True, 1)`, third call in the window returns `(False, 0)`. -/
theorem check_rate_limit_window_monotone_witness :
    (rlTestSettings.rate_limit_enabled = true) ∧
    ((RedisKV.mk [] false false).failGet = false) ∧
    ((RedisKV.mk [] false false).failPipe = false) ∧
    (kvGet (RedisKV.mk [] false false).counters
      (getRateLimitKey "login:alice" (windowName 60) none) = none) ∧
    ((1 : Nat) ≤ 1) ∧ ((1 : Nat) ≤ 2) ∧
    (rlCallResult rlTestSettings (RedisKV.mk [] false false) "login:alice" 2 60 none 0
       = (true, 1) ∧
     rlCallResult rlTestSettings (RedisKV.mk [] false false) "login:alice" 2 60 none 2
       = (false, 0)) :=
  ⟨rfl, rfl, rfl, rfl, by decide, by decide,
   check_rate_limit_window_monotone rlTestSettings (RedisKV.mk [] false false)
     "login:alice" 2 60 none rfl rfl rfl rfl 1 (by decide) (by decide)⟩

/-- C8 (amended): the `X-RateLimit-Remaining` header is attached only to
responses of requests that *passed* the rate limit (the handler assigns
`request.state.rate_limit_remaining` only after the check succeeds); a
request denied by the limiter yields a 429 response with no
`X-RateLimit-Remaining` header, because the `HTTPException` is raised
before the attribute is set and `dispatch` adds the header only when the
attribute exists. -/
theorem rate_limit_remaining_header_behavior (rl : Bool × Nat)
    (cont : Option Nat → GwResponse) :
    rateLimitPipeline rl cont
      = if rl.1 = false then { status := 429, headers := [] }
        else { status := (cont (some rl.2)).status,
               headers := (cont (some rl.2)).headers
                 ++ [("X-RateLimit-Remaining", toString rl.2)] } := by
  by_cases h : rl.1 = false <;>
    simp [rateLimitPipeline, gatewayRateLimitPhase, addRateLimitHeader, h]

/-- C8 counterexample: a request denied by the rate limiter (counter at the
limit) produces a 429 response whose header list is empty — in particular
it does **not** carry `X-RateLimit-Remaining: 0`. -/
theorem rate_limited_response_lacks_header :
    ((checkRateLimit rlTestSettings c8Redis "ip:203.0.113.9" 5 60 (some "/x")).1
      = (false, 0)) ∧
    ((rateLimitPipeline
        (checkRateLimit rlTestSettings c8Redis "ip:203.0.113.9" 5 60 (some "/x")).1
        (fun _ => { status := 200, headers := [] })).status = 429) ∧
    ((rateLimitPipeline
        (checkRateLimit rlTestSettings c8Redis "ip:203.0.113.9" 5 60 (some "/x")).1
        (fun _ => { status := 200, headers := [] })).headers = []) := by
  refine ⟨by decide, by decide, by decide⟩

/-- Source: `_calculate_priority` decomposes as the kind bonus plus ten times the
segment count. -/
theorem calculatePriority_eq_bonus (path : String) :
    calculatePriority path = priorityBonus path + 10 * (segmentCount path : Int) := by
  unfold calculatePriority priorityBonus
  split_ifs <;> ring

/-- C1 (amended): `find_route` returns, among the loaded routes matching
`(path, method)`, the one with the greatest computed priority
`priorityBonus + 10 * segments` (bonus: `+1000` unless the pattern ends in
`/*` or `/**`, `-50` if it contains a brace); when priorities tie, the route
inserted earlier wins.  For a table of two matching routes: the earlier
route is returned iff its priority is at least the other's; with equal kind
bonuses, the route with more path segments is returned.  (Exact beats
parameterized, and parameterized beats wildcard, only while the extra
segments of the lower-kind pattern do not offset the kind bonus — see the
counterexample.) -/
theorem find_route_priority_insertion (a b : RouteConfig) (p m : String)
    (ha : Route.matches (toRoute a) p m = true)
    (hb : Route.matches (toRoute b) p m = true) :
    (calculatePriority b.path ≤ calculatePriority a.path →
      findRoute (loadRoutes [a, b]) p m = some (toRoute a)) ∧
    (calculatePriority a.path < calculatePriority b.path →
      findRoute (loadRoutes [a, b]) p m = some (toRoute b)) ∧
    (priorityBonus a.path = priorityBonus b.path →
      segmentCount b.path < segmentCount a.path →
      findRoute (loadRoutes [a, b]) p m = some (toRoute a)) := by
  have hload : loadRoutes [a, b]
      = if (toRoute a).priority < (toRoute b).priority
        then [toRoute b, toRoute a] else [toRoute a, toRoute b] := by
    simp [loadRoutes, sortRoutesDesc, insertByPriorityDesc]
  have hpa : (toRoute a).priority = calculatePriority a.path := rfl
  have hpb : (toRoute b).priority = calculatePriority b.path := rfl
  have h1 : calculatePriority b.path ≤ calculatePriority a.path →
      findRoute (loadRoutes [a, b]) p m = some (toRoute a) := by
    intro h
    rw [hload, if_neg (by rw [hpa, hpb]; exact not_lt.mpr h)]
    exact List.find?_cons_of_pos _ ha
  refine ⟨h1, ?_, ?_⟩
  · intro h
    rw [hload, if_pos (by rw [hpa, hpb]; exact h)]
    exact List.find?_cons_of_pos _ hb
  · intro hbonus hsegs
    refine h1 ?_
    rw [calculatePriority_eq_bonus, calculatePriority_eq_bonus, hbonus]
    omega

/-- Witness for `find_route_priority_insertion`: exact route `/api` and
wildcard route `/api/**`, request `GET /api/users` matching both. -/
theorem find_route_priority_insertion_witness :
    (Route.matches (toRoute (mkRouteConfig "/api" "s1" ["GET"])) "/api/users" "GET" = true) ∧
    (Route.matches (toRoute (mkRouteConfig "/api/**" "s2" ["GET"])) "/api/users" "GET" = true) ∧
    ((calculatePriority (mkRouteConfig "/api/**" "s2" ["GET"]).path
        ≤ calculatePriority (mkRouteConfig "/api" "s1" ["GET"]).path →
      findRoute (loadRoutes [mkRouteConfig "/api" "s1" ["GET"],
          mkRouteConfig "/api/**" "s2" ["GET"]]) "/api/users" "GET"
        = some (toRoute (mkRouteConfig "/api" "s1" ["GET"]))) ∧
     (calculatePriority (mkRouteConfig "/api" "s1" ["GET"]).path
        < calculatePriority (mkRouteConfig "/api/**" "s2" ["GET"]).path →
      findRoute (loadRoutes [mkRouteConfig "/api" "s1" ["GET"],
          mkRouteConfig "/api/**" "s2" ["GET"]]) "/api/users" "GET"
        = some (toRoute (mkRouteConfig "/api/**" "s2" ["GET"]))) ∧
     (priorityBonus (mkRouteConfig "/api" "s1" ["GET"]).path
        = priorityBonus (mkRouteConfig "/api/**" "s2" ["GET"]).path →
      segmentCount (mkRouteConfig "/api/**" "s2" ["GET"]).path
        < segmentCount (mkRouteConfig "/api" "s1" ["GET"]).path →
      findRoute (loadRoutes [mkRouteConfig "/api" "s1" ["GET"],
          mkRouteConfig "/api/**" "s2" ["GET"]]) "/api/users" "GET"
        = some (toRoute (mkRouteConfig "/api" "s1" ["GET"])))) :=
  ⟨by decide, by decide,
   find_route_priority_insertion (mkRouteConfig "/api" "s1" ["GET"])
     (mkRouteConfig "/api/**" "s2" ["GET"]) "/api/users" "GET"
     (by decide) (by decide)⟩

/-- C1 counterexample: the exact route `/a` and the parameterized route
`/a/\x7bx\x7d/b/c/d/e/f` both match `GET /a/\x7bx\x7d/b/c/d/e/f`, yet
`find_route` returns the parameterized route (priority `1030`) over the
exact one (priority `1020`): an exact route is **not** always preferred to
a parameterized one. -/
theorem find_route_priority_counterexample :
    (Route.matches (toRoute cexRouteA) "/a/{x}/b/c/d/e/f" "GET" = true) ∧
    (Route.matches (toRoute cexRouteB) "/a/{x}/b/c/d/e/f" "GET" = true) ∧
    (pyEndsWith cexRouteA.path "/*" = false ∧ pyEndsWith cexRouteA.path "/**" = false ∧
      cexRouteA.path.data.contains braceChar = false) ∧
    (cexRouteB.path.data.contains braceChar = true ∧
      pyEndsWith cexRouteB.path "/*" = false ∧ pyEndsWith cexRouteB.path "/**" = false) ∧
    findRoute (loadRoutes [cexRouteA, cexRouteB]) "/a/{x}/b/c/d/e/f" "GET"
      = some (toRoute cexRouteB) := by
  refine ⟨by decide, by decide, by decide, by decide, by decide⟩

/-- The back-off sleeps recorded while the first `k` attempts (indices
`i ≤ j < i + k`) all fail with retryable errors: the loop from attempt `i`
sleeps `min(backoff_factor ^ j, max_delay_seconds)` after each such attempt
and continues at attempt `i + k`. -/
theorem retryLoop_delays_prefix (rs : RetrySettings) (retryable : ε → Bool)
    (f : Nat → Except ε α) (err : Nat → ε) :
    ∀ (k i : Nat), i + k < rs.max_attempts →
    (∀ j, i ≤ j → j < i + k → f j = .error (err j) ∧ retryable (err j) = true) →
    (retryLoop rs retryable f i (rs.max_attempts - i)).2
      = (List.range k).map
          (fun j => min (rs.backoff_factor ^ (i + j)) rs.max_delay_seconds)
        ++ (retryLoop rs retryable f (i + k) (rs.max_attempts - (i + k))).2 := by
  intro k
  induction k with
  | zero => intro i _ _; simp
  | succ n ih =>
    intro i hk hfail
    have hfi := hfail i (le_refl i) (by omega)
    have hfuel : rs.max_attempts - i = (rs.max_attempts - (i + 1)) + 1 := by omega
    rw [hfuel, retryLoop, hfi.1]
    dsimp only
    rw [if_pos hfi.2, if_pos (by omega : i < rs.max_attempts - 1)]
    dsimp only
    have ihh := ih (i + 1) (by omega) (fun j h1 h2 => hfail j (by omega) (by omega))
    have hmap : (List.range (n + 1)).map
        (fun j => min (rs.backoff_factor ^ (i + j)) rs.max_delay_seconds)
        = min (rs.backoff_factor ^ i) rs.max_delay_seconds
          :: (List.range n).map
              (fun j => min (rs.backoff_factor ^ (i + 1 + j)) rs.max_delay_seconds) := by
      rw [List.range_succ_eq_map, List.map_cons, List.map_map]
      refine congrArg₂ List.cons (by simp) ?_
      apply List.map_congr_left
      intro j _
      show min (rs.backoff_factor ^ (i + (j + 1))) rs.max_delay_seconds
        = min (rs.backoff_factor ^ (i + 1 + j)) rs.max_delay_seconds
      rw [show i + (j + 1) = i + 1 + j from by omega]
    have harg : i + 1 + n = i + (n + 1) := by omega
    rw [ihh, hmap, List.cons_append, harg]

/-- When every attempt from `i` to the last one fails with a retryable
error, the loop re-raises the error of the final attempt. -/
theorem retryLoop_reraises_last (rs : RetrySettings) (retryable : ε → Bool)
    (f : Nat → Except ε α) (err : Nat → ε) :
    ∀ (fuel i : Nat), i + fuel = rs.max_attempts → 1 ≤ fuel →
    (∀ j, i ≤ j → j < rs.max_attempts → f j = .error (err j) ∧ retryable (err j) = true) →
    (retryLoop rs retryable f i fuel).1 = .raised (err (rs.max_attempts - 1)) := by
  intro fuel
  induction fuel with
  | zero => intro i _ h1 _; omega
  | succ n ih =>
    intro i hsum _ hfail
    have hfi := hfail i (le_refl i) (by omega)
    rw [retryLoop, hfi.1]
    dsimp only
    rw [if_pos hfi.2]
    match n, ih with
    | 0, _ =>
      rw [if_neg (by omega : ¬ i < rs.max_attempts - 1)]
      have h : i = rs.max_attempts - 1 := by omega
      rw [h]
    | m + 1, ih =>
      rw [if_pos (by omega : i < rs.max_attempts - 1)]
      exact ih (i + 1) (by omega) (by omega)
        (fun j h1 h2 => hfail j (by omega) h2)

/-- C4: with retry enabled, when attempts `1..k` (1-indexed) all fail with
an allowlisted (retryable) error and `k < max_attempts`, the delay slept
before retry `i` (1-indexed) is `min(backoff_factor ^ (i-1),
max_delay_seconds)` — i.e. the list of sleeps has the `j`-th (0-indexed)
entry `min(backoff_factor ^ j, max_delay_seconds)`; and when all
`max_attempts` attempts fail with retryable errors, the error of the last
attempt is re-raised to the caller. -/
theorem retry_backoff_delays_and_reraise (rs : RetrySettings)
    (retryable : ε → Bool) (f : Nat → Except ε α) (err : Nat → ε)
    (hen : rs.retry_enabled = true)
    (k : Nat) (hk : k < rs.max_attempts)
    (hfail : ∀ j, j < k → f j = .error (err j) ∧ retryable (err j) = true) :
    (executeAsync rs retryable f).2.take k
      = (List.range k).map
          (fun j => min (rs.backoff_factor ^ j) rs.max_delay_seconds) ∧
    ((∀ j, j < rs.max_attempts → f j = .error (err j) ∧ retryable (err j) = true) →
      (executeAsync rs retryable f).1 = .raised (err (rs.max_attempts - 1))) := by
  have hexec : executeAsync rs retryable f
      = retryLoop rs retryable f 0 rs.max_attempts := by
    rw [executeAsync, if_neg (by simp [hen])]
  constructor
  · have h0 : rs.max_attempts = rs.max_attempts - 0 := by omega
    have hpre := retryLoop_delays_prefix rs retryable f err k 0 (by omega)
      (fun j h1 h2 => hfail j (by omega))
    rw [hexec, h0, hpre]
    rw [List.take_left' (by simp)]
    simp
  · intro hall
    rw [hexec]
    exact retryLoop_reraises_last rs retryable f err rs.max_attempts 0
      (by omega) (by omega) (fun j _ h2 => hall j h2)

/-- Witness for `retry_backoff_delays_and_reraise`: 3 attempts, backoff
factor 2, cap 10; every attempt fails retryably; the first two sleeps are
`[1, 2]` seconds and the final error (of attempt index 2) is re-raised. -/
theorem retry_backoff_delays_and_reraise_witness :
    (retryTestSettings.retry_enabled = true) ∧
    (2 < retryTestSettings.max_attempts) ∧
    (∀ j, j < 2 → retryTestF j = .error j ∧ (fun _ : Nat => true) j = true) ∧
    ((executeAsync retryTestSettings (fun _ => true) retryTestF).2.take 2
       = (List.range 2).map
           (fun j => min (retryTestSettings.backoff_factor ^ j)
              retryTestSettings.max_delay_seconds) ∧
     ((∀ j, j < retryTestSettings.max_attempts →
         retryTestF j = .error j ∧ (fun _ : Nat => true) j = true) →
       (executeAsync retryTestSettings (fun _ => true) retryTestF).1
         = .raised (retryTestSettings.max_attempts - 1))) :=
  ⟨rfl, by decide, fun j _ => ⟨rfl, rfl⟩,
   retry_backoff_delays_and_reraise retryTestSettings (fun _ => true)
     retryTestF (fun j => j) rfl 2 (by decide) (fun j _ => ⟨rfl, rfl⟩)⟩

/-- C3: with `failure_threshold=2, timeout_seconds=1, half_open_max_calls=2`,
starting CLOSED with zero counters: two consecutive failures (at `t0`, `t1`)
move the breaker to OPEN; a call less than 1 second after the last failure is
rejected with CIRCUIT_OPEN without invoking the wrapped function (result and
state are independent of the would-be outcome); the first call at least 1
second after the last failure transitions to HALF_OPEN on that call and
executes the function; two consecutive successes then give CLOSED with
`failure_count = 0`; a failure while HALF_OPEN returns to OPEN immediately. -/
theorem circuit_breaker_open_recover (t0 t1 t2 t3 t4 : ℚ)
    (h2 : t2 - t1 < 1) (h3 : 1 ≤ t3 - t1) :
    (cbS2 t0 t1).state = .opened ∧
    (∀ o : Outcome, cbCall cbTestConfig (cbS2 t0 t1) t2 o = (.rejected, cbS2 t0 t1)) ∧
    (cbCall cbTestConfig (cbS2 t0 t1) t3 .success).1 = .ok ∧
    (cbS4 t0 t1 t3).state = .halfOpen ∧
    (cbCall cbTestConfig (cbS4 t0 t1 t3) t4 .success).2.state = .closed ∧
    (cbCall cbTestConfig (cbS4 t0 t1 t3) t4 .success).2.failure_count = 0 ∧
    (cbCall cbTestConfig (cbS4 t0 t1 t3) t4 .failure).2.state = .opened := by
  have hen : ¬ (cbTestConfig.enabled = false) := by decide
  have e2 : cbS2 t0 t1 =
      { state := .opened, failure_count := 2, success_count := 0,
        last_failure_time := some t1, half_open_calls := 0 } := rfl
  have hr2 : shouldAttemptReset cbTestConfig
      { state := .opened, failure_count := 2, success_count := 0,
        last_failure_time := some t1, half_open_calls := 0 } t2 = false := by
    simp only [shouldAttemptReset, cbTestConfig, decide_eq_false_iff_not, not_le]
    exact h2
  have hr3 : shouldAttemptReset cbTestConfig
      { state := .opened, failure_count := 2, success_count := 0,
        last_failure_time := some t1, half_open_calls := 0 } t3 = true := by
    simp only [shouldAttemptReset, cbTestConfig, decide_eq_true_eq]
    exact h3
  have e4 : cbS4 t0 t1 t3 =
      { state := .halfOpen, failure_count := 2, success_count := 1,
        last_failure_time := some t1, half_open_calls := 1 } := by
    unfold cbS4
    rw [e2, cbCall, if_neg hen, if_neg (by simp [hr3])]
    rfl
  refine ⟨by rw [e2], ?_, ?_, by rw [e4], ?_, ?_, ?_⟩
  · intro o
    rw [e2, cbCall, if_neg hen, if_pos ⟨rfl, hr2⟩]
  · rw [e2, cbCall, if_neg hen, if_neg (by simp [hr3])]
    rfl
  · rw [e4, cbCall, if_neg hen, if_neg (by simp)]
    rfl
  · rw [e4, cbCall, if_neg hen, if_neg (by simp)]
    rfl
  · rw [e4, cbCall, if_neg hen, if_neg (by simp)]
    rfl

/-- Witness for `circuit_breaker_open_recover` at
`t0 = 0, t1 = 0, t2 = 1/2, t3 = 2, t4 = 3`. -/
theorem circuit_breaker_open_recover_witness :
    ((1 : ℚ)/2 - 0 < 1) ∧ ((1 : ℚ) ≤ 2 - 0) ∧
    ((cbS2 0 0).state = .opened ∧
     (∀ o : Outcome, cbCall cbTestConfig (cbS2 0 0) (1/2) o = (.rejected, cbS2 0 0)) ∧
     (cbCall cbTestConfig (cbS2 0 0) 2 .success).1 = .ok ∧
     (cbS4 0 0 2).state = .halfOpen ∧
     (cbCall cbTestConfig (cbS4 0 0 2) 3 .success).2.state = .closed ∧
     (cbCall cbTestConfig (cbS4 0 0 2) 3 .success).2.failure_count = 0 ∧
     (cbCall cbTestConfig (cbS4 0 0 2) 3 .failure).2.state = .opened) :=
  ⟨by norm_num, by norm_num,
   circuit_breaker_open_recover 0 0 (1/2) 2 3 (by norm_num) (by norm_num)⟩

/-- C10: a failure while HALF_OPEN resets only `half_open_calls` and leaves
`success_count` untouched (the state returning to OPEN); consequently, once
the accumulated `success_count` equals `half_open_max_calls - 1`, a later
HALF_OPEN episode reaches CLOSED (with counters cleared) after a single
success — fewer than `half_open_max_calls` successes in that episode.
`reset()` does clear `success_count`. -/
theorem circuit_breaker_success_count_persists
    (cfg : CBConfig) (cb : CBState) (now : ℚ)
    (hen : cfg.enabled = true)
    (hho : cb.state = .halfOpen)
    (hmax : 1 ≤ cfg.half_open_max_calls)
    (hsc : cb.success_count = cfg.half_open_max_calls - 1) :
    (onFailure cfg cb now).half_open_calls = 0 ∧
    (onFailure cfg cb now).success_count = cb.success_count ∧
    (onFailure cfg cb now).state = .opened ∧
    (cbCall cfg (onFailure cfg cb now) (now + cfg.timeout_seconds) .success).2.state
      = .closed ∧
    (cbCall cfg (onFailure cfg cb now) (now + cfg.timeout_seconds) .success).2.success_count
      = 0 ∧
    (cbReset cb).success_count = 0 := by
  have eF : onFailure cfg cb now =
      { state := .opened, failure_count := cb.failure_count + 1,
        success_count := cb.success_count,
        last_failure_time := some now, half_open_calls := 0 } := by
    simp only [onFailure, hho]
    simp
  have hrs : shouldAttemptReset cfg
      { state := .opened, failure_count := cb.failure_count + 1,
        success_count := cb.success_count,
        last_failure_time := some now, half_open_calls := 0 }
      (now + cfg.timeout_seconds) = true := by
    simp only [shouldAttemptReset, decide_eq_true_eq]
    have h : now + cfg.timeout_seconds - now = cfg.timeout_seconds := by ring
    rw [h]
  have hsucc : cb.success_count + 1 = cfg.half_open_max_calls := by
    rw [hsc]
    exact Nat.succ_pred_eq_of_pos hmax
  have eC : (cbCall cfg (onFailure cfg cb now) (now + cfg.timeout_seconds) .success).2
      = { state := .closed, failure_count := 0, success_count := 0,
          last_failure_time := some now, half_open_calls := 0 } := by
    rw [eF, cbCall, if_neg (by simp [hen]), if_neg (by simp [hrs]), if_pos rfl]
    simp only [applyOutcome, onSuccess, hsucc]
    simp
  refine ⟨by rw [eF], by rw [eF], by rw [eF], by rw [eC], by rw [eC], rfl⟩

/-- Witness for `circuit_breaker_success_count_persists`: a HALF_OPEN state
with `success_count = 1` under `half_open_max_calls = 2`. -/
theorem circuit_breaker_success_count_persists_witness :
    (cbTestConfig.enabled = true) ∧
    (CBState.mk .halfOpen 2 1 (some 0) 1).state = .halfOpen ∧
    (1 ≤ cbTestConfig.half_open_max_calls) ∧
    ((CBState.mk .halfOpen 2 1 (some 0) 1).success_count
      = cbTestConfig.half_open_max_calls - 1) ∧
    ((onFailure cbTestConfig (CBState.mk .halfOpen 2 1 (some 0) 1) 5).half_open_calls = 0 ∧
     (onFailure cbTestConfig (CBState.mk .halfOpen 2 1 (some 0) 1) 5).success_count
       = (CBState.mk .halfOpen 2 1 (some 0) 1).success_count ∧
     (onFailure cbTestConfig (CBState.mk .halfOpen 2 1 (some 0) 1) 5).state = .opened ∧
     (cbCall cbTestConfig (onFailure cbTestConfig (CBState.mk .halfOpen 2 1 (some 0) 1) 5)
        (5 + cbTestConfig.timeout_seconds) .success).2.state = .closed ∧
     (cbCall cbTestConfig (onFailure cbTestConfig (CBState.mk .halfOpen 2 1 (some 0) 1) 5)
        (5 + cbTestConfig.timeout_seconds) .success).2.success_count = 0 ∧
     (cbReset (CBState.mk .halfOpen 2 1 (some 0) 1)).success_count = 0) :=
  ⟨rfl, rfl, by norm_num [cbTestConfig], rfl,
   circuit_breaker_success_count_persists cbTestConfig
     (CBState.mk .halfOpen 2 1 (some 0) 1) 5 rfl rfl
     (by norm_num [cbTestConfig]) rfl⟩

/-- C9: because `gateway_handler` constructs a fresh `LoadBalancer` per
request, no counter state survives between requests: under the
`round_robin` strategy, every request whose service has at least two
healthy instances selects the **first** healthy instance of its discovered
list, for every position in the request sequence, independent of all
earlier requests. -/
theorem gateway_fresh_lb_always_first_healthy
    (choice : List ServiceInstance → Option ServiceInstance)
    (reqs : List (List ServiceInstance × String))
    (h : ∀ r ∈ reqs, 2 ≤ (r.1.filter (fun i => i.healthy)).length) :
    gatewaySelections "round_robin" choice reqs
      = reqs.map (fun r => (r.1.filter (fun i => i.healthy)).head?) := by
  unfold gatewaySelections
  apply List.map_congr_left
  intro r hr
  have h2 := h r hr
  unfold gatewaySelectInstance selectInstance
  cases hl : r.1.filter (fun i => i.healthy) with
  | nil => rw [hl] at h2; simp at h2
  | cons x xs =>
    rw [hl] at h2
    have h3 : 2 ≤ xs.length + 1 := by simpa using h2
    dsimp only
    rw [if_neg (by simp), if_neg (by simp only [List.length_cons]; omega),
        if_pos (show (LoadBalancer.init "round_robin" none).strategy
          = "round_robin" from rfl)]
    simp [roundRobin, alistGet, LoadBalancer.init]

/-- Witness for `gateway_fresh_lb_always_first_healthy`: two requests to a
service with two healthy instances each select the first one. -/
theorem gateway_fresh_lb_always_first_healthy_witness :
    (∀ r ∈ [([ServiceInstance.mk "http://a" 1 true 0,
              ServiceInstance.mk "http://b" 1 true 0], "svc"),
            ([ServiceInstance.mk "http://a" 1 true 0,
              ServiceInstance.mk "http://b" 1 true 0], "svc")],
       2 ≤ ((r : List ServiceInstance × String).1.filter (fun i => i.healthy)).length) ∧
    gatewaySelections "round_robin" (fun l => l.head?)
        [([ServiceInstance.mk "http://a" 1 true 0,
           ServiceInstance.mk "http://b" 1 true 0], "svc"),
         ([ServiceInstance.mk "http://a" 1 true 0,
           ServiceInstance.mk "http://b" 1 true 0], "svc")]
      = [([ServiceInstance.mk "http://a" 1 true 0,
           ServiceInstance.mk "http://b" 1 true 0], "svc"),
         ([ServiceInstance.mk "http://a" 1 true 0,
           ServiceInstance.mk "http://b" 1 true 0], "svc")].map
          (fun r => (r.1.filter (fun i => i.healthy)).head?) :=
  ⟨by decide,
   gateway_fresh_lb_always_first_healthy (fun l => l.head?) _ (by decide)⟩

/-- On a login/register path with a fresh request state, the extractor
caches the transport bytes in `request.state._body`, the middleware request
caches them for replay, and exactly one transport read happens — whatever
the JSON parse yields. -/
theorem extractLoginIdentifier_caches
    (parse : List UInt8 → Option (List (String × String)))
    (path : String) (s0 : BodyState)
    (hpath : isAuthBodyPath path = true)
    (hli : s0.login_identifier = none)
    (hstate : s0.state_body = none)
    (hcache : s0.middleware_cache = none) :
    ((extractLoginIdentifier parse path s0).2).state_body
      = some s0.transport_body ∧
    ((extractLoginIdentifier parse path s0).2).middleware_cache
      = some s0.transport_body ∧
    ((extractLoginIdentifier parse path s0).2).transport_reads
      = s0.transport_reads + 1 := by
  simp only [extractLoginIdentifier, hpath, hli, hstate, hcache, requestBodyMw]
  repeat' split
  all_goals simp_all

/-- C2: for any request with a fresh state whose path the limiter treats as
login/register, the bytes the limiter read and cached are exactly the
transport bytes, the body later forwarded by `gateway_handler` is
byte-identical to them, and — for every path, login or not — the transport
stream is consumed at most once. -/
theorem body_reuse_single_transport_read
    (parse : List UInt8 → Option (List (String × String)))
    (path : String) (s0 : BodyState)
    (hli : s0.login_identifier = none)
    (hstate : s0.state_body = none)
    (hcache : s0.middleware_cache = none)
    (hreads : s0.transport_reads = 0) :
    (isAuthBodyPath path = true →
      (rateLimitDispatchBody parse path s0).state_body = some s0.transport_body) ∧
    (pipelineForwardedBody parse path s0).1 = s0.transport_body ∧
    (pipelineForwardedBody parse path s0).2.transport_reads ≤ 1 := by
  by_cases hpath : isAuthBodyPath path = true
  · have hx := extractLoginIdentifier_caches parse path s0 hpath hli hstate hcache
    have hdisp : rateLimitDispatchBody parse path s0
        = (extractLoginIdentifier parse path s0).2 := by
      rw [rateLimitDispatchBody, if_pos hpath]
    refine ⟨fun _ => by rw [hdisp]; exact hx.1, ?_, ?_⟩
    · rw [pipelineForwardedBody, hdisp, requestBodyHandler, hx.2.1]
    · rw [pipelineForwardedBody, hdisp, requestBodyHandler, hx.2.1]
      simp only []
      omega
  · have hdisp : rateLimitDispatchBody parse path s0 = s0 := by
      rw [rateLimitDispatchBody, if_neg (by simpa using hpath)]
    refine ⟨fun h => absurd h hpath, ?_, ?_⟩
    · rw [pipelineForwardedBody, hdisp, requestBodyHandler, hcache]
    · rw [pipelineForwardedBody, hdisp, requestBodyHandler, hcache]
      simp [hreads]

/-- Witness for `body_reuse_single_transport_read`: a `POST /auth/login`
request with body bytes `[104, 105]` and a parser that fails; the limiter
caches `[104, 105]`, the forwarded body is `[104, 105]`, and the transport
was read once. -/
theorem body_reuse_single_transport_read_witness :
    ((BodyState.mk [104, 105] 0 none none none).login_identifier = none) ∧
    ((BodyState.mk [104, 105] 0 none none none).state_body = none) ∧
    ((BodyState.mk [104, 105] 0 none none none).middleware_cache = none) ∧
    ((BodyState.mk [104, 105] 0 none none none).transport_reads = 0) ∧
    ((isAuthBodyPath "/auth/login" = true →
       (rateLimitDispatchBody (fun _ => none) "/auth/login"
         (BodyState.mk [104, 105] 0 none none none)).state_body
         = some (BodyState.mk [104, 105] 0 none none none).transport_body) ∧
     (pipelineForwardedBody (fun _ => none) "/auth/login"
       (BodyState.mk [104, 105] 0 none none none)).1
       = (BodyState.mk [104, 105] 0 none none none).transport_body ∧
     (pipelineForwardedBody (fun _ => none) "/auth/login"
       (BodyState.mk [104, 105] 0 none none none)).2.transport_reads ≤ 1) :=
  ⟨rfl, rfl, rfl, rfl,
   body_reuse_single_transport_read (fun _ => none) "/auth/login"
     (BodyState.mk [104, 105] 0 none none none) rfl rfl rfl rfl⟩

end GatewaySpec
